import Mathlib

/-
  Verification of the SmartHomeScripts heating controller corpus.

  The definitions below are a shallow embedding of the numeric core of the
  learning script (main, Steps 2 to 5 of
  src/iobroker/heating_controller/iobroker_heating_weather_data_analyse.js,
  second document) and of the weather-compensation module of the per-room
  script (src/unnamed/part_001).  JavaScript numbers are modelled as
  rationals; JavaScript null is modelled by Option.
-/

namespace HeatingScripts

/-- reduce((a, b) => a + b, 0): a left fold with initial accumulator 0. -/
def listSum (w : List ℚ) : ℚ := w.foldl (· + ·) 0

/-- const mean = sum / stabilityWindow.length. -/
def mean (w : List ℚ) : ℚ := listSum w / (w.length : ℚ)

/-- const variance = stabilityWindow.map(x => Math.pow(x - mean, 2))
      .reduce((a, b) => a + b, 0) / stabilityWindow.length. -/
def variance (w : List ℚ) : ℚ :=
  listSum (w.map fun x => (x - mean w) ^ 2) / (w.length : ℚ)

/-- const stability = 1.0 / (1.0 + variance). -/
def stability (w : List ℚ) : ℚ := 1 / (1 + variance w)

/-- historyData.slice(-(CONFIG.stabilityCalculationHours * 2)) with
    stabilityCalculationHours = 3: the last 6 entries (the whole list when it
    is shorter). -/
def stabilityWindow (historyData : List ℚ) : List ℚ :=
  historyData.drop (historyData.length - 6)

/-- The adjustmentCase labels of the learning logic in main (Step 4). -/
inductive Regime where
  | sluggish
  | overreacting
  | optimal
  | defaultConvergence
deriving DecidableEq

/-- Which branch of the if / else-if chain of Step 4 fires, as a function of
    avg3h and stability.  Thresholds are the literals of the source. -/
def adjustmentCase (avg3h stab : ℚ) : Regime :=
  if avg3h < 7 ∧ stab < 0.4 then Regime.sluggish
  else if avg3h > 16 ∧ stab > 0.6 then Regime.overreacting
  else if 8 ≤ avg3h ∧ avg3h ≤ 12 ∧ stab > 0.7 then Regime.optimal
  else Regime.defaultConvergence

/-- The default-case update of Step 4:
    newReglerleistung += (1.0 - newReglerleistung) * (CONFIG.basisLernrate * stability)
    with basisLernrate = 0.02. -/
def defaultConvergenceUpdate (prev stab : ℚ) : ℚ :=
  prev + (1 - prev) * (0.02 * stab)

/-- The pre-clamp new controller performance of Step 4, as a function of
    avg3h, stability and the previously persisted factor.  Each branch is the
    corresponding assignment of the source, with basisLernrate = 0.02. -/
def adjustRaw (avg3h stab prev : ℚ) : ℚ :=
  if avg3h < 7 ∧ stab < 0.4 then prev + ((7 - avg3h) / 7) * (0.02 * 2)
  else if avg3h > 16 ∧ stab > 0.6 then prev * 0.95
  else if 8 ≤ avg3h ∧ avg3h ≤ 12 ∧ stab > 0.7 then prev * 0.99 + 0.01
  else defaultConvergenceUpdate prev stab

/-- if (newReglerleistung < 0.3) newReglerleistung = 0.3. -/
def clampLower (x : ℚ) : ℚ := if x < 0.3 then 0.3 else x

/-- if (newReglerleistung > 1.7) newReglerleistung = 1.7. -/
def clampUpper (x : ℚ) : ℚ := if x > 1.7 then 1.7 else x

/-- Both hard limits of Step 4, applied in source order. -/
def clamp (x : ℚ) : ℚ := clampUpper (clampLower x)

/-- The new persisted controller performance produced by one learning step on
    a window w with previously persisted factor prev: the Step 4 adjustment
    at avg3h = mean w and the computed stability, then the hard limits. -/
def newReglerleistung (w : List ℚ) (prev : ℚ) : ℚ :=
  clamp (adjustRaw (mean w) (stability w) prev)

/-- The tunable parameters of the estimator.  In the source the learning rate
    is CONFIG.basisLernrate and the remaining values appear as numeric
    literals in Step 4; the spec names them as external configuration, which
    this record makes explicit. -/
structure EstimatorConfig where
  basisLernrate : ℚ
  lowMeanThreshold : ℚ
  lowStabilityThreshold : ℚ
  aggressiveMultiplier : ℚ
  highMeanThreshold : ℚ
  highStabilityThreshold : ℚ
  optimalLow : ℚ
  optimalHigh : ℚ
  optimalStabilityThreshold : ℚ
  dampingFactor : ℚ
  convergenceWeight : ℚ
  lowerBound : ℚ
  upperBound : ℚ

/-- The parameter values of the source (CONFIG.basisLernrate = 0.02 and the
    literals of Step 4 and 5). -/
def sourceConfig : EstimatorConfig where
  basisLernrate := 0.02
  lowMeanThreshold := 7
  lowStabilityThreshold := 0.4
  aggressiveMultiplier := 2
  highMeanThreshold := 16
  highStabilityThreshold := 0.6
  optimalLow := 8
  optimalHigh := 12
  optimalStabilityThreshold := 0.7
  dampingFactor := 0.95
  convergenceWeight := 0.99
  lowerBound := 0.3
  upperBound := 1.7

/-- The Step 4 branch selection with the thresholds made parameters. -/
def adjustmentCaseCfg (cfg : EstimatorConfig) (avg3h stab : ℚ) : Regime :=
  if avg3h < cfg.lowMeanThreshold ∧ stab < cfg.lowStabilityThreshold then Regime.sluggish
  else if avg3h > cfg.highMeanThreshold ∧ stab > cfg.highStabilityThreshold then Regime.overreacting
  else if cfg.optimalLow ≤ avg3h ∧ avg3h ≤ cfg.optimalHigh ∧ stab > cfg.optimalStabilityThreshold then Regime.optimal
  else Regime.defaultConvergence

/-- The Step 4 pre-clamp adjustment with the thresholds made parameters; the
    chain and the branch formulas are those of the source. -/
def adjustRawCfg (cfg : EstimatorConfig) (avg3h stab prev : ℚ) : ℚ :=
  if avg3h < cfg.lowMeanThreshold ∧ stab < cfg.lowStabilityThreshold then
    prev + ((cfg.lowMeanThreshold - avg3h) / cfg.lowMeanThreshold) * (cfg.basisLernrate * cfg.aggressiveMultiplier)
  else if avg3h > cfg.highMeanThreshold ∧ stab > cfg.highStabilityThreshold then
    prev * cfg.dampingFactor
  else if cfg.optimalLow ≤ avg3h ∧ avg3h ≤ cfg.optimalHigh ∧ stab > cfg.optimalStabilityThreshold then
    prev * cfg.convergenceWeight + (1 - cfg.convergenceWeight)
  else
    prev + (1 - prev) * (cfg.basisLernrate * stab)

/-- One item of result.result as returned by the getHistory call: its val may
    be null. -/
structure HistoryItem where
  val : Option ℚ

/-- The outcome of the sendTo getHistory request: result.error and
    result.result as inspected in Step 2 of main. -/
structure QueryOutcome where
  error : Option String
  result : Option (List HistoryItem)

/-- result.result.map(item => item.val).filter(v => v !== null && v >= 0). -/
def sanitize (items : List HistoryItem) : List ℚ :=
  ((items.map HistoryItem.val).filterMap id).filter fun v => 0 ≤ v

/-- One invocation of main in normal (non-simulation) operation, as a function
    of the fetched inputs.  Returns the pair (stability, newReglerleistung)
    that Step 5 writes, or none when the cycle aborts by an early return or
    by a thrown and caught error (heating period off, spread not a number or
    below minSpreizungForLearning = 2.0, query error, missing or empty result,
    fewer than 3 sanitized samples).  Step 5 formats both written values with
    toFixed(4); that decimal formatting of the written copy is not modelled
    here. -/
def mainStep (heizperiodeAktiv : Bool) (aktuelleSpreizung : Option ℚ)
    (q : QueryOutcome) (currentReglerleistungState : Option ℚ) : Option (ℚ × ℚ) :=
  if !heizperiodeAktiv then none
  else
    match aktuelleSpreizung with
    | none => none
    | some spreizung =>
      if spreizung < 2 then none
      else
        match q.error with
        | some _ => none
        | none =>
          match q.result with
          | none => none
          | some items =>
            if items.length = 0 then none
            else
              let historyData := sanitize items
              if historyData.length < 3 then none
              else
                let w := stabilityWindow historyData
                let prev := match currentReglerleistungState with
                  | some v => v
                  | none => 1
                some (stability w, newReglerleistung w prev)

/-- Step 4 of main: newReglerleistung = currentReglerleistungState ?
    currentReglerleistungState.val : 1.0 — absence of the persisted state
    yields the neutral default. -/
def resolveReglerleistungEstimator (s : Option ℚ) : ℚ :=
  match s with
  | some v => v
  | none => 1

/-- Room script (src/unnamed/part_001), section 2.3:
    const reglerleistung = states.reglerleistung || 1.0.  The JavaScript
    or-operator also replaces a falsy stored 0 by the fallback. -/
def resolveReglerleistungRoom (s : Option ℚ) : ℚ :=
  match s with
  | some v => if v = 0 then 1 else v
  | none => 1

/-- Room script, section 4, weather compensation module: when the outdoor
    temperature is below CONFIG.aussenTempNeutral,
    neueSollTemp += (aussenTempNeutral - aussenTemp) *
    (CONFIG.heizkurvenfaktor * reglerleistung); otherwise no change.  The two
    CONFIG constants are parameters here. -/
def weatherCompensation (aussenTempNeutral heizkurvenfaktor : ℚ)
    (neueSollTemp aussenTemp reglerleistung : ℚ) : ℚ :=
  if aussenTemp < aussenTempNeutral then
    neueSollTemp + (aussenTempNeutral - aussenTemp) * (heizkurvenfaktor * reglerleistung)
  else neueSollTemp

/-- The Step 3 / Step 4 arithmetic with an explicit guard at each division
    whose denominator depends on the input: the window length (mean and
    variance) and 1 + variance (stability).  A guard firing is the only
    conceivable error case of the core computation. -/
def estimateChecked (w : List ℚ) (prev : ℚ) : Option (ℚ × ℚ) :=
  if w.length = 0 then none
  else
    let m := listSum w / (w.length : ℚ)
    let v := listSum (w.map fun x => (x - m) ^ 2) / (w.length : ℚ)
    if 1 + v = 0 then none
    else some (1 / (1 + v), clamp (adjustRaw m (1 / (1 + v)) prev))

/-- An adversarial configuration under which the regime A and regime C
    conditions can hold simultaneously. -/
def advCfg : EstimatorConfig where
  basisLernrate := 0.02
  lowMeanThreshold := 20
  lowStabilityThreshold := 0.9
  aggressiveMultiplier := 2
  highMeanThreshold := 16
  highStabilityThreshold := 0.6
  optimalLow := 0
  optimalHigh := 30
  optimalStabilityThreshold := 0.4
  dampingFactor := 0.95
  convergenceWeight := 0.99
  lowerBound := 0.3
  upperBound := 1.7

/-! Helper lemmas about the embedded arithmetic. -/

lemma foldl_add_shift (l : List ℚ) (a : ℚ) :
    l.foldl (· + ·) a = a + l.foldl (· + ·) 0 := by
  induction l generalizing a with
  | nil => simp
  | cons x t ih =>
    simp only [List.foldl_cons]
    rw [ih (a + x), ih (0 + x)]
    ring

lemma listSum_cons (x : ℚ) (t : List ℚ) : listSum (x :: t) = x + listSum t := by
  unfold listSum
  simp only [List.foldl_cons]
  rw [foldl_add_shift t (0 + x)]
  ring

lemma listSum_nonneg (l : List ℚ) (h : ∀ x ∈ l, 0 ≤ x) : 0 ≤ listSum l := by
  induction l with
  | nil => simp [listSum]
  | cons x t ih =>
    rw [listSum_cons]
    have hx : 0 ≤ x := h x (List.mem_cons_self x t)
    have ht : 0 ≤ listSum t := ih fun y hy => h y (List.mem_cons_of_mem x hy)
    linarith

lemma listSum_const (w : List ℚ) (v : ℚ) (h : ∀ x ∈ w, x = v) :
    listSum w = (w.length : ℚ) * v := by
  induction w with
  | nil => simp [listSum]
  | cons x t ih =>
    rw [listSum_cons, h x (List.mem_cons_self x t),
      ih fun y hy => h y (List.mem_cons_of_mem x hy)]
    simp only [List.length_cons]
    push_cast
    ring

lemma variance_nonneg (w : List ℚ) : 0 ≤ variance w := by
  unfold variance
  apply div_nonneg
  · apply listSum_nonneg
    intro x hx
    obtain ⟨y, -, rfl⟩ := List.mem_map.mp hx
    positivity
  · exact Nat.cast_nonneg _

lemma stability_pos (w : List ℚ) : 0 < stability w := by
  unfold stability
  have := variance_nonneg w
  positivity

lemma stability_le_one (w : List ℚ) : stability w ≤ 1 := by
  unfold stability
  have h := variance_nonneg w
  rw [div_le_one (by linarith)]
  linarith

lemma mean_const (w : List ℚ) (v : ℚ) (hne : w ≠ []) (h : ∀ x ∈ w, x = v) :
    mean w = v := by
  have hlen : (w.length : ℚ) ≠ 0 := by
    have := List.length_pos.mpr hne
    positivity
  unfold mean
  rw [listSum_const w v h]
  field_simp

lemma variance_const (w : List ℚ) (v : ℚ) (hne : w ≠ []) (h : ∀ x ∈ w, x = v) :
    variance w = 0 := by
  unfold variance
  have hz : listSum (w.map fun x => (x - mean w) ^ 2) = 0 := by
    have hm := mean_const w v hne h
    have hconst : ∀ y ∈ w.map fun x => (x - mean w) ^ 2, y = 0 := by
      intro y hy
      obtain ⟨x, hx, rfl⟩ := List.mem_map.mp hy
      rw [h x hx, hm]
      ring
    simpa using listSum_const _ 0 hconst
  rw [hz, zero_div]

lemma stability_const (w : List ℚ) (v : ℚ) (hne : w ≠ []) (h : ∀ x ∈ w, x = v) :
    stability w = 1 := by
  unfold stability
  rw [variance_const w v hne h]
  norm_num

lemma clamp_bounds (x : ℚ) : 0.3 ≤ clamp x ∧ clamp x ≤ 1.7 := by
  unfold clamp clampUpper clampLower
  split_ifs <;> constructor <;> norm_num <;> linarith

/-! The claims. -/

/-- Claim C1: for every window of non-negative rationals of length at least 1
    and every previousFactor, the factor produced by one learning step lies in
    the closed interval from 0.3 to 1.7, regardless of the magnitude of the
    window values or of previousFactor. -/
theorem c1_factor_within_bounds (w : List ℚ) (prev : ℚ)
    (hlen : 1 ≤ w.length) (hpos : ∀ x ∈ w, 0 ≤ x) :
    0.3 ≤ newReglerleistung w prev ∧ newReglerleistung w prev ≤ 1.7 := by
  unfold newReglerleistung
  exact clamp_bounds _

/-- Witness for C1 at a window of all zeros and a previousFactor far beyond
    the upper bound. -/
theorem c1_witness :
    0.3 ≤ newReglerleistung [0, 0, 0] 100 ∧ newReglerleistung [0, 0, 0] 100 ≤ 1.7 :=
  c1_factor_within_bounds [0, 0, 0] 100 (by norm_num) (by norm_num)

/-- Claim C4: for every non-empty window of non-negative rationals, the
    stability score equals 1 / (1 + variance) and lies in the half-open
    interval (0, 1]. -/
theorem c4_stability_range (w : List ℚ)
    (hne : w ≠ []) (hpos : ∀ x ∈ w, 0 ≤ x) :
    stability w = 1 / (1 + variance w) ∧ 0 < stability w ∧ stability w ≤ 1 :=
  ⟨rfl, stability_pos w, stability_le_one w⟩

/-- Witness for C4 at the window [1, 2, 3]. -/
theorem c4_witness :
    stability [1, 2, 3] = 1 / (1 + variance [1, 2, 3]) ∧
    0 < stability [1, 2, 3] ∧ stability [1, 2, 3] ≤ 1 :=
  c4_stability_range [1, 2, 3] (by simp) (by norm_num)

/-- Claim C5: whenever the window mean exceeds 16 and the stability exceeds
    0.6, the pre-clamp adjustment is the pure multiplicative decay prev * 0.95,
    independent of how far the mean exceeds the threshold; in particular the
    6-sample window [18, 18, 17, 19, 18, 18] (mean 18, stability 3/4) with
    previousFactor 1.2 yields 1.2 * 0.95 = 1.14. -/
theorem c5_regime_b_pure_decay (w : List ℚ) (prev : ℚ)
    (hmean : mean w > 16) (hstab : stability w > 0.6) :
    adjustRaw (mean w) (stability w) prev = prev * 0.95 ∧
    adjustRaw (mean [18, 18, 17, 19, 18, 18]) (stability [18, 18, 17, 19, 18, 18]) (6/5) = 1.14 := by
  constructor
  · unfold adjustRaw
    rw [if_neg, if_pos ⟨hmean, hstab⟩]
    rintro ⟨h7, -⟩
    linarith
  · have h1 : mean [18, 18, 17, 19, 18, 18] = 18 := by
      norm_num [mean, listSum, List.foldl]
    have h2 : stability [18, 18, 17, 19, 18, 18] = 3/4 := by
      norm_num [stability, variance, mean, listSum, List.foldl]
    rw [adjustRaw, h1, h2]
    norm_num

/-- Witness for C5 at the window [18, 18, 17, 19, 18, 18] and previousFactor
    6/5. -/
theorem c5_witness :
    adjustRaw (mean [18, 18, 17, 19, 18, 18]) (stability [18, 18, 17, 19, 18, 18]) (6/5) = (6/5) * 0.95 ∧
    adjustRaw (mean [18, 18, 17, 19, 18, 18]) (stability [18, 18, 17, 19, 18, 18]) (6/5) = 1.14 :=
  c5_regime_b_pure_decay [18, 18, 17, 19, 18, 18] (6/5)
    (by norm_num [mean, listSum, List.foldl])
    (by norm_num [stability, variance, mean, listSum, List.foldl])

/-- Claim C6: every constant window has stability exactly 1; for the window
    [5, 5, 5, 5, 5, 5] with previousFactor 1 the regime A stability condition
    fails, the default regime is taken, and the new factor is exactly 1. -/
theorem c6_constant_window (w : List ℚ) (v : ℚ)
    (hne : w ≠ []) (hconst : ∀ x ∈ w, x = v) :
    stability w = 1 ∧
    adjustmentCase (mean [5, 5, 5, 5, 5, 5]) (stability [5, 5, 5, 5, 5, 5]) = Regime.defaultConvergence ∧
    newReglerleistung [5, 5, 5, 5, 5, 5] 1 = 1 := by
  have h1 : mean [5, 5, 5, 5, 5, 5] = 5 := by
    norm_num [mean, listSum, List.foldl]
  have h2 : stability [5, 5, 5, 5, 5, 5] = 1 :=
    stability_const _ 5 (by simp) (by norm_num)
  refine ⟨stability_const w v hne hconst, ?_, ?_⟩
  · rw [adjustmentCase, h1, h2]
    norm_num
  · rw [newReglerleistung, adjustRaw, h1, h2]
    norm_num [defaultConvergenceUpdate, clamp, clampLower, clampUpper]

/-- Witness for C6 at the window [5, 5, 5, 5, 5, 5]. -/
theorem c6_witness :
    stability [5, 5, 5, 5, 5, 5] = 1 ∧
    adjustmentCase (mean [5, 5, 5, 5, 5, 5]) (stability [5, 5, 5, 5, 5, 5]) = Regime.defaultConvergence ∧
    newReglerleistung [5, 5, 5, 5, 5, 5] 1 = 1 :=
  c6_constant_window [5, 5, 5, 5, 5, 5] 5 (by simp) (by norm_num)

/-- Claim C10: the default-regime update never overshoots the neutral value:
    for every previousFactor and every stability in (0, 1] the pre-clamp
    result lies weakly between previousFactor and 1, and the distance to 1
    never increases. -/
theorem c10_default_no_overshoot (prev stab : ℚ) (h1 : 0 < stab) (h2 : stab ≤ 1) :
    (min prev 1 ≤ defaultConvergenceUpdate prev stab ∧
      defaultConvergenceUpdate prev stab ≤ max prev 1) ∧
    |defaultConvergenceUpdate prev stab - 1| ≤ |prev - 1| := by
  unfold defaultConvergenceUpdate
  constructor
  · rcases le_total prev 1 with hp | hp
    · rw [min_eq_left hp, max_eq_right hp]
      constructor <;> nlinarith
    · rw [min_eq_right hp, max_eq_left hp]
      constructor <;> nlinarith
  · have key : prev + (1 - prev) * (0.02 * stab) - 1 = (prev - 1) * (1 - 0.02 * stab) := by
      ring
    rw [key, abs_mul]
    have h3 : |1 - 0.02 * stab| ≤ 1 := by
      rw [abs_le]
      constructor <;> nlinarith
    calc |prev - 1| * |1 - 0.02 * stab| ≤ |prev - 1| * 1 :=
          mul_le_mul_of_nonneg_left h3 (abs_nonneg _)
      _ = |prev - 1| := mul_one _

/-- Witness for C10 at previousFactor 2 and stability 1/2. -/
theorem c10_witness :
    (min 2 1 ≤ defaultConvergenceUpdate 2 (1/2) ∧
      defaultConvergenceUpdate 2 (1/2) ≤ max 2 1) ∧
    |defaultConvergenceUpdate 2 (1/2) - 1| ≤ |(2 : ℚ) - 1| :=
  c10_default_no_overshoot 2 (1/2) (by norm_num) (by norm_num)

/-- Counterexample to C2 as stated: the window [9, 10, 10, 11] has mean 10 in
    [8, 12] and stability 2/3 above 0.6, yet the optimal-band branch is not
    selected and the adjustment at previousFactor 1/2 differs from the claimed
    convergence formula, because the source gates the optimal band at
    stability above 0.7, not above the 0.6 that gates regime B. -/
theorem c2_counterexample :
    8 ≤ mean [9, 10, 10, 11] ∧ mean [9, 10, 10, 11] ≤ 12 ∧
    stability [9, 10, 10, 11] > 0.6 ∧
    adjustmentCase (mean [9, 10, 10, 11]) (stability [9, 10, 10, 11]) ≠ Regime.optimal ∧
    adjustRaw (mean [9, 10, 10, 11]) (stability [9, 10, 10, 11]) (1/2) ≠ (1/2) * 0.99 + (1 - 0.99) * 1 := by
  have h1 : mean [9, 10, 10, 11] = 10 := by
    norm_num [mean, listSum, List.foldl]
  have h2 : stability [9, 10, 10, 11] = 2/3 := by
    norm_num [stability, variance, mean, listSum, List.foldl]
  rw [adjustmentCase, adjustRaw, h1, h2]
  norm_num [defaultConvergenceUpdate]
  simp

/-- Claim C2 amended: the optimal-band branch is selected exactly when the
    window mean lies in [8, 12] and stability exceeds 0.7 (a stricter
    threshold than the 0.6 gating regime B), and in that case the pre-clamp
    adjustment is previousFactor * 0.99 + (1 - 0.99) * 1. -/
theorem c2_regime_c_amended (w : List ℚ) (prev : ℚ) :
    (adjustmentCase (mean w) (stability w) = Regime.optimal ↔
      8 ≤ mean w ∧ mean w ≤ 12 ∧ stability w > 0.7) ∧
    (8 ≤ mean w → mean w ≤ 12 → stability w > 0.7 →
      adjustRaw (mean w) (stability w) prev = prev * 0.99 + (1 - 0.99) * 1) := by
  constructor
  · unfold adjustmentCase
    split_ifs with hA hB hC
    · constructor
      · intro h
        exact absurd h (by simp)
      · rintro ⟨h8, -, -⟩
        have := hA.1
        norm_num at this
        linarith
    · constructor
      · intro h
        exact absurd h (by simp)
      · rintro ⟨-, h12, -⟩
        have := hB.1
        linarith
    · constructor
      · intro _
        exact hC
      · intro _
        rfl
    · constructor
      · intro h
        exact absurd h (by simp)
      · intro h
        exact absurd h hC
  · intro h8 h12 hs
    have hn1 : ¬(mean w < 7 ∧ stability w < 0.4) := by
      rintro ⟨h7, -⟩
      linarith
    have hn2 : ¬(mean w > 16 ∧ stability w > 0.6) := by
      rintro ⟨h16, -⟩
      linarith
    unfold adjustRaw
    rw [if_neg hn1, if_neg hn2, if_pos ⟨h8, h12, hs⟩]
    norm_num

/-- Witness for the amended C2 at the window [10, 10] (mean 10, stability 1)
    and previousFactor 1/2. -/
theorem c2_witness :
    adjustmentCase (mean [10, 10]) (stability [10, 10]) = Regime.optimal ∧
    adjustRaw (mean [10, 10]) (stability [10, 10]) (1/2) = (1/2) * 0.99 + (1 - 0.99) * 1 := by
  have hm : mean [10, 10] = 10 := by
    norm_num [mean, listSum, List.foldl]
  have hs : stability [10, 10] = 1 := by
    norm_num [stability, variance, mean, listSum, List.foldl]
  exact ⟨(c2_regime_c_amended [10, 10] (1/2)).1.mpr (by rw [hm, hs]; norm_num),
    (c2_regime_c_amended [10, 10] (1/2)).2 (by rw [hm]; norm_num) (by rw [hm]; norm_num)
      (by rw [hs]; norm_num)⟩

/-- Claim C3: the regimes are chosen by first match in the order A, B, C,
    default; whenever the regime A condition and the regime C condition hold
    simultaneously under some threshold configuration, the regime A branch and
    its adjustment are the ones applied. -/
theorem c3_regime_priority (cfg : EstimatorConfig) (w : List ℚ) (prev : ℚ)
    (hA : mean w < cfg.lowMeanThreshold ∧ stability w < cfg.lowStabilityThreshold)
    (hC : cfg.optimalLow ≤ mean w ∧ mean w ≤ cfg.optimalHigh ∧
      stability w > cfg.optimalStabilityThreshold) :
    adjustmentCaseCfg cfg (mean w) (stability w) = Regime.sluggish ∧
    adjustRawCfg cfg (mean w) (stability w) prev =
      prev + ((cfg.lowMeanThreshold - mean w) / cfg.lowMeanThreshold) *
        (cfg.basisLernrate * cfg.aggressiveMultiplier) := by
  refine ⟨?_, ?_⟩
  · unfold adjustmentCaseCfg
    rw [if_pos hA]
  · unfold adjustRawCfg
    rw [if_pos hA]

/-- Witness for C3: under the adversarial configuration advCfg the window
    [4, 6] (mean 5, stability 1/2) satisfies both the regime A and the regime
    C conditions, and regime A is applied. -/
theorem c3_witness :
    adjustmentCaseCfg advCfg (mean [4, 6]) (stability [4, 6]) = Regime.sluggish ∧
    adjustRawCfg advCfg (mean [4, 6]) (stability [4, 6]) 1 =
      1 + ((advCfg.lowMeanThreshold - mean [4, 6]) / advCfg.lowMeanThreshold) *
        (advCfg.basisLernrate * advCfg.aggressiveMultiplier) :=
  c3_regime_priority advCfg [4, 6] 1
    (by constructor <;> norm_num [advCfg, mean, stability, variance, listSum, List.foldl])
    (by refine ⟨?_, ?_, ?_⟩ <;> norm_num [advCfg, mean, stability, variance, listSum, List.foldl])

/-- Claim C7: if the historical query returns an error, no result, an empty
    result, or fewer than 3 valid samples after filtering, the learning cycle
    aborts and writes neither the performance factor nor the stability
    datapoint (the invocation yields no write pair, so the persisted state is
    retained). -/
theorem c7_abort_retains_state (heiz : Bool) (spreizung : Option ℚ)
    (q : QueryOutcome) (prevState : Option ℚ)
    (h : q.error.isSome ∨ q.result = none ∨ q.result = some [] ∨
      ∃ items, q.result = some items ∧ (sanitize items).length < 3) :
    mainStep heiz spreizung q prevState = none := by
  unfold mainStep
  cases heiz
  · rfl
  · cases spreizung with
    | none => rfl
    | some s =>
      by_cases hs : s < 2
      · simp [hs]
      · rcases h with herr | hres | hres | ⟨items, hres, hlen⟩
        · obtain ⟨e, he⟩ := Option.isSome_iff_exists.mp herr
          simp [hs, he]
        · simp [hs, hres]
          cases q.error <;> rfl
        · simp [hs, hres, sanitize]
          cases q.error <;> rfl
        · by_cases hzero : items.length = 0
          · simp [hs, hres, hzero]
            cases q.error <;> rfl
          · simp [hs, hres, hzero, hlen]
            cases q.error <;> rfl

/-- Witness for C7 at a query outcome carrying an error. -/
theorem c7_witness :
    mainStep true (some 5) (QueryOutcome.mk (some "query failed") none) (some 1) = none :=
  c7_abort_retains_state true (some 5) (QueryOutcome.mk (some "query failed") none) (some 1)
    (Or.inl rfl)

/-- Claim C8: in the per-room setpoint logic, when the outdoor temperature is
    below the neutral temperature the weather-compensation increase equals
    (neutral - outdoorTemp) * heizkurvenfaktor * reglerleistung; and an absent
    persisted performance factor is replaced by the neutral default 1 both by
    the room script and by the estimator. -/
theorem c8_downstream_factor_use (ntl hkf base aussen : ℚ) (rlOpt : Option ℚ)
    (h : aussen < ntl) :
    weatherCompensation ntl hkf base aussen (resolveReglerleistungRoom rlOpt) - base =
      (ntl - aussen) * hkf * resolveReglerleistungRoom rlOpt ∧
    resolveReglerleistungRoom none = 1 ∧
    resolveReglerleistungEstimator none = 1 := by
  refine ⟨?_, rfl, rfl⟩
  unfold weatherCompensation
  rw [if_pos h]
  ring

/-- Witness for C8 at neutral 12, factor 0.25, base setpoint 20, outdoor
    temperature 5 and a stored factor 1.2. -/
theorem c8_witness :
    weatherCompensation 12 0.25 20 5 (resolveReglerleistungRoom (some 1.2)) - 20 =
      (12 - 5) * 0.25 * resolveReglerleistungRoom (some 1.2) ∧
    resolveReglerleistungRoom none = 1 ∧
    resolveReglerleistungEstimator none = 1 :=
  c8_downstream_factor_use 12 0.25 20 5 (some 1.2) (by norm_num)

/-- Claim C9: on every window of length at least 1 of non-negative rationals
    and every previousFactor, the guarded core computation hits no error
    branch: every division has a non-zero denominator and the checked
    estimator returns exactly the stability and the clamped factor. -/
theorem c9_total_function (w : List ℚ) (prev : ℚ)
    (hlen : 1 ≤ w.length) (hpos : ∀ x ∈ w, 0 ≤ x) :
    estimateChecked w prev = some (stability w, newReglerleistung w prev) := by
  have hlen0 : w.length ≠ 0 := by omega
  have hv : ¬((1 : ℚ) + variance w = 0) := by
    have := variance_nonneg w
    intro hc
    linarith
  unfold estimateChecked
  rw [if_neg hlen0]
  show (if (1 : ℚ) + variance w = 0 then none
    else some (1 / (1 + variance w), clamp (adjustRaw (mean w) (1 / (1 + variance w)) prev))) =
    some (stability w, newReglerleistung w prev)
  rw [if_neg hv]
  rfl

/-- Witness for C9 at the window [1, 2, 3] and previousFactor 1. -/
theorem c9_witness :
    estimateChecked [1, 2, 3] 1 = some (stability [1, 2, 3], newReglerleistung [1, 2, 3] 1) :=
  c9_total_function [1, 2, 3] 1 (by norm_num) (by norm_num)

end HeatingScripts
